import Mathlib

/-!
Verification of the core detection engine of the Vue anti-pattern detector
(`src/core/detector.js`).  The data model mirrors the `@vue/compiler-core`
AST shape the code consumes (`prop.type` 6 = attribute, 7 = directive;
node `type` 0 = root fragment, 1 = element, 2 = text, 5 = interpolation),
and each detector is a direct translation of its JavaScript source.
-/

namespace VueDetect

/-- Source location `{line, column}` as carried by AST nodes and issues. -/
structure Loc where
  line : Nat
  column : Nat
  deriving DecidableEq, Repr

/-- One entry of `node.props` in the template AST.  `ptype` is the JS
`prop.type` (6 = attribute node, 7 = directive node).  `arg` models
`prop.arg?.content`, `exp` models `prop.exp?.content`, `value` models
`prop.value?.content`.  In the AST produced by `@vue/compiler-sfc`, a
directive node (`type === 7`) has no `value` property at all, so for
parser-produced props `ptype = 7 → value = none`. -/
structure NodeProp where
  ptype : Nat
  name : String
  rawName : Option String
  arg : Option String
  exp : Option String
  value : Option String
  deriving DecidableEq, Repr

/-- A template AST node: `type`, `props`, `children`, interpolation
`content?.content`, and `loc?.start`. -/
inductive TNode where
  | mk (ntype : Nat) (props : List NodeProp) (children : List TNode)
       (content : Option String) (loc : Option Loc)

def TNode.ntype : TNode → Nat
  | .mk t _ _ _ _ => t

def TNode.props : TNode → List NodeProp
  | .mk _ p _ _ _ => p

def TNode.children : TNode → List TNode
  | .mk _ _ c _ _ => c

def TNode.content : TNode → Option String
  | .mk _ _ _ c _ => c

def TNode.loc : TNode → Option Loc
  | .mk _ _ _ _ l => l

/-- `descriptor.template`: the template block with its AST and raw text. -/
structure TemplateBlock where
  ast : TNode
  content : String

/-- `descriptor.script`: the script block (raw text). -/
structure ScriptBlock where
  content : String

/-- The descriptor returned by `@vue/compiler-sfc`'s `parse`. -/
structure SFCDescriptor where
  template : Option TemplateBlock
  script : Option ScriptBlock

/-- The parsed SFC object (`parse(content)`). -/
structure SFC where
  descriptor : SFCDescriptor

/-- The normalized issue record pushed by every detector. -/
structure Issue where
  pattern : String
  severity : String
  message : String
  location : Loc
  refactoring : Option String
  deriving DecidableEq, Repr

/-- `getSeverityWeight`: `{CRITICAL: 4, HIGH: 3, MEDIUM: 2, LOW: 1}`,
anything else (`weights[severity] || 0`) weighs 0. -/
def getSeverityWeight (severity : String) : Nat :=
  if severity = "CRITICAL" then 4
  else if severity = "HIGH" then 3
  else if severity = "MEDIUM" then 2
  else if severity = "LOW" then 1
  else 0

/-- Whether `pat` occurs as a contiguous sublist of `l`. -/
def listInfix (pat : List Char) : List Char → Bool
  | [] => pat.isPrefixOf []
  | c :: rest => pat.isPrefixOf (c :: rest) || listInfix pat rest

/-- JS `String.prototype.includes`: `includes s sub` is true when `sub`
occurs as a contiguous substring of `s`. -/
def includes (s sub : String) : Bool :=
  listInfix sub.toList s.toList

/-- `hasDirective(node, name)`: some prop has `type === 7 && name === name`. -/
def hasDirective (n : TNode) (directiveName : String) : Bool :=
  n.props.any fun p => p.ptype == 7 && p.name == directiveName

/-- `getDirective(node, name)`: first prop with `type === 7 && name === name`. -/
def getDirective (n : TNode) (directiveName : String) : Option NodeProp :=
  n.props.find? fun p => p.ptype == 7 && p.name == directiveName

/-- `getNodeLocation(node)`: `node.loc?.start?.line || 1` and likewise for
the column (a 0 value falls back to 1, as `||` does in JS). -/
def getNodeLocation (n : TNode) : Loc :=
  match n.loc with
  | none => ⟨1, 1⟩
  | some l => ⟨if l.line = 0 then 1 else l.line, if l.column = 0 then 1 else l.column⟩

/-- `isDynamicContent(content)`: `content && (content.includes('\x7b\x7b') ||
content.includes('$') || content.includes('('))`; a missing (`undefined`)
argument is falsy. -/
def isDynamicContent (content : Option String) : Bool :=
  match content with
  | none => false
  | some s => includes s "\x7b\x7b" || includes s "$" || includes s "("

mutual

/-- `getMaxTemplateDepth(node, currentDepth)`: fold `max` over the children,
recursing with depth+1 into children of element kind (`type === 1`) only. -/
def getMaxTemplateDepth (n : TNode) (currentDepth : Nat) : Nat :=
  match n with
  | .mk _ _ children _ _ => maxDepthOverChildren children currentDepth

/-- The `node.children.forEach` accumulation inside `getMaxTemplateDepth`. -/
def maxDepthOverChildren (children : List TNode) (currentDepth : Nat) : Nat :=
  match children with
  | [] => currentDepth
  | c :: cs =>
      if c.ntype = 1 then
        max (getMaxTemplateDepth c (currentDepth + 1)) (maxDepthOverChildren cs currentDepth)
      else
        maxDepthOverChildren cs currentDepth

end

mutual

/-- `traverseTemplate(node, callback)` specialised to a callback that pushes
issues: the callback result for the node itself, followed by the results for
the children, which are visited only for fragment (`type === 0`) and element
(`type === 1`) nodes. -/
def traverseCollect (f : TNode → List Issue) (n : TNode) : List Issue :=
  match n with
  | .mk t props children content l =>
      f (.mk t props children content l) ++
        (if t = 0 ∨ t = 1 then traverseCollectList f children else [])

/-- Sequential traversal of a child list (`children.forEach`). -/
def traverseCollectList (f : TNode → List Issue) (children : List TNode) : List Issue :=
  match children with
  | [] => []
  | c :: cs => traverseCollect f c ++ traverseCollectList f cs

end

mutual

/-- The list of nodes `traverseTemplate` visits, in visit (pre-)order. -/
def preorder (n : TNode) : List TNode :=
  match n with
  | .mk t props children content l =>
      .mk t props children content l ::
        (if t = 0 ∨ t = 1 then preorderList children else [])

/-- `preorder` mapped over a child list. -/
def preorderList (children : List TNode) : List TNode :=
  match children with
  | [] => []
  | c :: cs => preorder c ++ preorderList cs

end

/-! ## Template anti-pattern detectors -/

/-- The issue `detectVIfWithVFor` pushes for a matching element. -/
def vIfWithVForIssue (n : TNode) : Issue :=
  { pattern := "VIF_WITH_VFOR", severity := "CRITICAL",
    message := "Using v-if and v-for on the same element creates undefined behavior",
    location := getNodeLocation n,
    refactoring := some "<li v-for=\"user in users\" v-if=\"user.isActive\"> → <li v-for=\"user in activeUsers\"> where activeUsers = computed(() => users.filter(u => u.isActive))" }

/-- The callback body of `detectVIfWithVFor`: an element (`type === 1`)
carrying both a `for` and an `if` directive yields one CRITICAL issue. -/
def vIfWithVForNode (n : TNode) : List Issue :=
  if n.ntype == 1 && hasDirective n "for" && hasDirective n "if" then
    [vIfWithVForIssue n]
  else []

/-- `detectVIfWithVFor(sfc, filePath)`. -/
def detectVIfWithVFor (sfc : SFC) (_filePath : String) : List Issue :=
  match sfc.descriptor.template with
  | none => []
  | some template => traverseCollect vIfWithVForNode template.ast

/-- The issue `detectVForWithoutKey` pushes: severity is CRITICAL when the
file path contains `component`, HIGH otherwise. -/
def vForWithoutKeyIssue (filePath : String) (n : TNode) : Issue :=
  { pattern := "VFOR_WITHOUT_KEY",
    severity := if includes filePath "component" then "CRITICAL" else "HIGH",
    message := "Missing :key attribute in v-for iteration",
    location := getNodeLocation n,
    refactoring := some "Add :key=\"uniqueId\" to the iterated element" }

/-- The callback body of `detectVForWithoutKey`: an iteration-bound element
that has neither a `v-bind:key` directive nor a plain `key` attribute yields
one issue; severity is CRITICAL when the file path contains `'component'`,
HIGH otherwise. -/
def vForWithoutKeyNode (filePath : String) (n : TNode) : List Issue :=
  if n.ntype == 1 && hasDirective n "for" then
    let hasKeyDirective := n.props.any fun p =>
      p.ptype == 7 && p.name == "bind" && p.arg == some "key"
    let hasKeyAttribute := n.props.any fun p =>
      p.ptype == 6 && p.name == "key"
    if !hasKeyDirective && !hasKeyAttribute then
      [vForWithoutKeyIssue filePath n]
    else []
  else []

/-- `detectVForWithoutKey(sfc, filePath)`. -/
def detectVForWithoutKey (sfc : SFC) (filePath : String) : List Issue :=
  match sfc.descriptor.template with
  | none => []
  | some template => traverseCollect (vForWithoutKeyNode filePath) template.ast

/-- `prop.exp?.content || prop.value?.content || prop.value` — the fallback
chain both `detectVForIndexAsKey` reads use (`value` models whichever string
content the `value` property carries; parser-produced directives have none). -/
def dirExpValueChain (p : NodeProp) : Option String :=
  match p.exp with
  | some c => some c
  | none => p.value

/-- JS `\w` (word character): `[A-Za-z0-9_]`. -/
def isWordChar (c : Char) : Bool :=
  ('a' ≤ c && c ≤ 'z') || ('A' ≤ c && c ≤ 'Z') || ('0' ≤ c && c ≤ '9') || c == '_'

/-- JS `\s` (whitespace): space, tab, newline, carriage return, form feed,
vertical tab. -/
def isJsSpace (c : Char) : Bool :=
  c == ' ' || c == '\t' || c == '\n' || c == '\r' || c == '\x0c' || c == '\x0b'

/-- After the comma of `/\(.*,\s*(\w+)\)/`: skip `\s*`, take `\w+`
(at least one word character), require `)` right after; return the capture. -/
def tailAfterComma (l : List Char) : Option String :=
  let l1 := l.dropWhile isJsSpace
  let word := l1.takeWhile isWordChar
  if word ≠ [] && (l1.drop word.length).head? == some ')' then
    some (String.mk word)
  else
    none

/-- The backtracking search for the comma of `/\(.*,\s*(\w+)\)/` in the text
after the `(`: the greedy `.*` (which cannot cross a newline) selects the
**last** comma whose tail matches `\s*(\w+)\)`. -/
def lastCommaCapture : List Char → Option String
  | [] => none
  | c :: rest =>
      if c == '\n' then none
      else
        match lastCommaCapture rest with
        | some w => some w
        | none => if c == ',' then tailAfterComma rest else none

/-- `forContent.match(/\(.*,\s*(\w+)\)/)` returning the first capture group:
the match starts at the leftmost `(` from which the rest of the pattern can
be completed. -/
def forIndexVarMatch : List Char → Option String
  | [] => none
  | c :: rest =>
      if c == '(' then
        match lastCommaCapture rest with
        | some w => some w
        | none => forIndexVarMatch rest
      else forIndexVarMatch rest

/-- The HIGH issue `detectVForIndexAsKey` pushes. -/
def vForIndexAsKeyIssue (n : TNode) : Issue :=
  { pattern := "VFOR_INDEX_AS_KEY", severity := "HIGH",
    message := "Using array index as v-for key causes incorrect component reuse",
    location := getNodeLocation n,
    refactoring := some "Use unique identifier instead of array index for :key" }

/-- The callback body of `detectVForIndexAsKey`: on an iteration-bound
element with a `v-bind:key` directive, extract the secondary (index) variable
from the `(item, index)` form of the `v-for` expression and flag HIGH when the
key expression equals it. -/
def vForIndexAsKeyNode (n : TNode) : List Issue :=
  if n.ntype == 1 && hasDirective n "for" then
    match n.props.find? fun p => p.ptype == 7 && p.name == "bind" && p.arg == some "key" with
    | none => []
    | some keyDirective =>
      match getDirective n "for" with
      | none => []
      | some forDirective =>
        match dirExpValueChain forDirective with
        | none => []
        | some forContent =>
          match forIndexVarMatch forContent.toList with
          | none => []
          | some indexVar =>
            if dirExpValueChain keyDirective == some indexVar then
              [vForIndexAsKeyIssue n]
            else []
  else []

/-- `detectVForIndexAsKey(sfc, filePath)`. -/
def detectVForIndexAsKey (sfc : SFC) (_filePath : String) : List Issue :=
  match sfc.descriptor.template with
  | none => []
  | some template => traverseCollect vForIndexAsKeyNode template.ast

/-- The issue `detectVHtmlXssRisk` pushes; severity branches on
`isDynamicContent(vHtmlAttr.value)`. -/
def vHtmlXssRiskIssue (vHtmlAttr : NodeProp) (n : TNode) : Issue :=
  { pattern := "VHTML_XSS_RISK",
    severity := if isDynamicContent vHtmlAttr.value then "CRITICAL" else "HIGH",
    message := "Using v-html with dynamic content creates XSS vulnerability",
    location := getNodeLocation n,
    refactoring := some "Use text interpolation or sanitize content before using v-html" }

/-- The callback body of `detectVHtmlXssRisk`: an element with a directive
whose `rawName` is `v-html` yields one issue; the severity test reads
`vHtmlAttr.value` (not `vHtmlAttr.exp`), which is absent on parser-produced
directive nodes. -/
def vHtmlXssRiskNode (n : TNode) : List Issue :=
  if n.ntype == 1 && n.props.any (fun p => p.ptype == 7 && p.rawName == some "v-html") then
    match n.props.find? fun p => p.ptype == 7 && p.rawName == some "v-html" with
    | none => []
    | some vHtmlAttr => [vHtmlXssRiskIssue vHtmlAttr n]
  else []

/-- `detectVHtmlXssRisk(sfc, filePath)`. -/
def detectVHtmlXssRisk (sfc : SFC) (_filePath : String) : List Issue :=
  match sfc.descriptor.template with
  | none => []
  | some template => traverseCollect vHtmlXssRiskNode template.ast

/-! ## Threshold model -/

/-- `getDefaultThresholds()`: the default `ThresholdSet`, as an association
list in the source's property order. -/
def getDefaultThresholds : List (String × ℚ) :=
  [("templateExpressionLength", 40), ("templateDepth", 6), ("deepTemplateDepth", 10),
   ("componentScriptLength", 500), ("componentMethodCount", 20), ("componentPropsCount", 15),
   ("componentComputedCount", 10), ("componentTemplateDepth", 6),
   ("virtualizationThreshold", 500), ("shallowReactivityThreshold", 1000),
   ("bundleContributionThreshold", 5),
   ("vuexStateProperties", 20), ("vuexMutations", 20), ("vuexActions", 15), ("vuexGetters", 20),
   ("snapshotTestRatio", 0.5),
   ("typeCoverageThreshold", 95), ("anyUsageThreshold", 0.02)]

/-- The constructor's threshold handling:
`thresholds: options.thresholds || this.getDefaultThresholds()` (the trailing
`...options` spread re-assigns the same supplied value when present).  A
supplied set is used as-is; only a missing (`undefined`) one falls back to the
defaults. -/
def effectiveThresholds (supplied : Option (List (String × ℚ))) : List (String × ℚ) :=
  match supplied with
  | some t => t
  | none => getDefaultThresholds

/-- JS property read `thresholds[key]`: `undefined` becomes `none`. -/
def lookupThreshold (ts : List (String × ℚ)) (key : String) : Option ℚ :=
  ts.lookup key

/-! ## Orchestrator -/

/-- A registry entry's `run` function.  JS detectors can throw
(`Except.error` carries the exception message). -/
def DetectorFn : Type := SFC → String → Except String (List Issue)

/-- Lift a never-throwing detector into `DetectorFn`. -/
def liftDetector (d : SFC → String → List Issue) : DetectorFn :=
  fun sfc filePath => .ok (d sfc filePath)

/-- The `Object.entries(this.detectors).forEach` loop of `analyzeFile`:
run each detector in registration order, appending its issues; a thrown
exception propagates (the loop is *not* individually guarded). -/
def runDetectors (detectors : List (String × DetectorFn)) (sfc : SFC) (filePath : String) :
    Except String (List Issue) :=
  detectors.foldlM
    (fun issues entry => (entry.2 sfc filePath).map fun patternIssues => issues ++ patternIssues)
    []

/-- The synthetic issue built in `analyzeFile`'s catch block. -/
def parseErrorIssue (msg : String) : Issue :=
  { pattern := "PARSE_ERROR", severity := "CRITICAL",
    message := "Failed to parse Vue SFC: " ++ msg,
    location := ⟨1, 1⟩, refactoring := none }

/-- The `{filePath, issues}` record `analyzeFile` returns. -/
structure FileResult where
  filePath : String
  issues : List Issue
  deriving DecidableEq, Repr

/-- `issues.sort((a, b) => weight(b) - weight(a))`: JS `Array.prototype.sort`
is stable (ES2019), so the model is a stable insertion sort by non-increasing
severity weight. -/
def insertByWeight (a : Issue) : List Issue → List Issue
  | [] => [a]
  | b :: l =>
      if getSeverityWeight b.severity ≤ getSeverityWeight a.severity then a :: b :: l
      else b :: insertByWeight a l

/-- Stable sort of the merged issue list by descending severity weight. -/
def sortIssues : List Issue → List Issue
  | [] => []
  | a :: l => insertByWeight a (sortIssues l)

/-- `analyzeFile(filePath, content)`: parse, run every registered detector,
sort; the single `try/catch` wraps both the parse and the whole detector
loop, and its catch returns the synthetic `PARSE_ERROR` result. -/
def analyzeFile (parseSFC : String → Except String SFC)
    (detectors : List (String × DetectorFn)) (filePath content : String) : FileResult :=
  match parseSFC content with
  | .error e => ⟨filePath, [parseErrorIssue e]⟩
  | .ok sfc =>
      match runDetectors detectors sfc filePath with
      | .error e => ⟨filePath, [parseErrorIssue e]⟩
      | .ok issues => ⟨filePath, sortIssues issues⟩

/-! ## Text scanners used by the testing-category detectors

Each scanner is a model of one JS regular expression, named in its
doc comment.  A `fuel` argument (initialised with the text length) bounds
the recursion where a match consumes more than one character. -/

/-- Apostrophe character (char code 39). -/
def apostChar : Char := Char.ofNat 39

/-- Backquote character (char code 96). -/
def backquoteChar : Char := Char.ofNat 96

/-- Left curly bracket (char code 123). -/
def lbrace : Char := Char.ofNat 123

/-- Right curly bracket (char code 125). -/
def rbrace : Char := Char.ofNat 125

/-- A JS string-literal quote: `['"`]` in the test-block regexes. -/
def isQuoteChar (c : Char) : Bool :=
  c == apostChar || c == '"' || c == backquoteChar

/-- Strip an exact literal, returning the remainder. -/
def dropLit (p l : List Char) : Option (List Char) :=
  if p.isPrefixOf l then some (l.drop p.length) else none

/-- `getLineColumnFromIndex(content, index)`: 1-based line and column of a
character index (`substring(0, index).split('\n')`). -/
def getLineColumnFromIndex (content : String) (index : Nat) : Loc :=
  let before := content.toList.take index
  ⟨before.count '\n' + 1, (before.reverse.takeWhile (fun c => c != '\n')).length + 1⟩

/-- `String.prototype.indexOf` (first occurrence index). -/
def firstIndexAux (pat : List Char) : Nat → List Char → Option Nat
  | idx, [] => if pat.isPrefixOf [] then some idx else none
  | idx, c :: rest =>
      if pat.isPrefixOf (c :: rest) then some idx else firstIndexAux pat (idx + 1) rest

/-- `getLineColumnFromIndex(content, content.indexOf(pat))`; when `indexOf`
returns -1 the JS helper sees `substring(0, -1) = ""` and yields (1,1), the
same location as index 0. -/
def jsIndexOfLoc (content pat : String) : Loc :=
  match firstIndexAux pat.toList 0 content.toList with
  | some i => getLineColumnFromIndex content i
  | none => getLineColumnFromIndex content 0

/-- Global matches of `/\b<lit>\w+/g` (e.g. `/\bwrapper\.vm\.\w+/g`):
word-boundary, then the literal, then at least one word character;
returns (index, matched text) pairs, non-overlapping. -/
def scanBoundLitWord (lit : List Char) : Bool → Nat → Nat → List Char → List (Nat × List Char)
  | _, _, _, [] => []
  | _, _, 0, _ => []
  | prevIsWord, idx, fuel + 1, c :: rest =>
      match (if prevIsWord then none else dropLit lit (c :: rest)) with
      | some r1 =>
          let word := r1.takeWhile isWordChar
          if word ≠ [] then
            let m := lit ++ word
            (idx, m) :: scanBoundLitWord lit true (idx + m.length) fuel (r1.drop word.length)
          else scanBoundLitWord lit (isWordChar c) (idx + 1) fuel rest
      | none => scanBoundLitWord lit (isWordChar c) (idx + 1) fuel rest

/-- Global matches of `/\b<lit>\s*\(/g` (e.g. `/\bsetData\s*\(/g`). -/
def scanBoundLitWsParen (lit : List Char) : Bool → Nat → Nat → List Char → List (Nat × List Char)
  | _, _, _, [] => []
  | _, _, 0, _ => []
  | prevIsWord, idx, fuel + 1, c :: rest =>
      match (if prevIsWord then none else dropLit lit (c :: rest)) with
      | some r1 =>
          let sp := r1.takeWhile isJsSpace
          if (r1.drop sp.length).head? == some '(' then
            let m := lit ++ sp ++ ['(']
            (idx, m) :: scanBoundLitWsParen lit false (idx + m.length) fuel ((r1.drop sp.length).drop 1)
          else scanBoundLitWsParen lit (isWordChar c) (idx + 1) fuel rest
      | none => scanBoundLitWsParen lit (isWordChar c) (idx + 1) fuel rest

/-- End position (index after the last character) of the **last** occurrence
of `pat` in `l`. -/
def lastInfixEnd (pat : List Char) : List Char → Option Nat
  | [] => none
  | c :: rest =>
      match lastInfixEnd pat rest with
      | some e => some (e + 1)
      | none => if pat.isPrefixOf (c :: rest) then some pat.length else none

/-- Global matches of `/expect\(.*<mid>/g` (e.g. `/expect\(.*\.computed\./g`):
the greedy `.*` cannot cross a newline and extends to the last occurrence of
`mid` on the line. -/
def scanExpectDotted (mid : List Char) : Nat → Nat → List Char → List (Nat × List Char)
  | _, _, [] => []
  | _, 0, _ => []
  | idx, fuel + 1, c :: rest =>
      match dropLit "expect(".toList (c :: rest) with
      | some r1 =>
          let line := r1.takeWhile fun x => x != '\n'
          match lastInfixEnd mid line with
          | some e =>
              let m := "expect(".toList ++ line.take e
              (idx, m) :: scanExpectDotted mid (idx + m.length) fuel ((c :: rest).drop m.length)
          | none => scanExpectDotted mid (idx + 1) fuel rest
      | none => scanExpectDotted mid (idx + 1) fuel rest

/-- `/\b<word>\b/.test(s)`: the literal with word boundaries on both sides. -/
def testWordBounded (w : List Char) : Bool → List Char → Bool
  | _, [] => false
  | prevIsWord, c :: rest =>
      (!prevIsWord && w.isPrefixOf (c :: rest) &&
        (match ((c :: rest).drop w.length).head? with
         | some c2 => !isWordChar c2
         | none => true)) ||
      testWordBounded w (isWordChar c) rest

/-- `/\b<word>\s*\(/.test(s)`. -/
def testBoundLitWsParen (w : List Char) : Bool → List Char → Bool
  | _, [] => false
  | prevIsWord, c :: rest =>
      (!prevIsWord && w.isPrefixOf (c :: rest) &&
        ((((c :: rest).drop w.length).dropWhile isJsSpace).head? == some '(')) ||
      testBoundLitWsParen w (isWordChar c) rest

/-- Index of the first `/\b<word>\b/` occurrence (`String.prototype.search`). -/
def firstWordIndexAux (w : List Char) : Bool → Nat → List Char → Option Nat
  | _, _, [] => none
  | prevIsWord, idx, c :: rest =>
      if !prevIsWord && w.isPrefixOf (c :: rest) &&
         (match ((c :: rest).drop w.length).head? with
          | some c2 => !isWordChar c2
          | none => true) then some idx
      else firstWordIndexAux w (isWordChar c) (idx + 1) rest

/-- Match a sequence of literals separated by `\s*`, returning the remainder
(with trailing `\s*` consumed). -/
def matchLitWsSeqRem : List (List Char) → List Char → Option (List Char)
  | [], l => some l
  | p :: ps, l =>
      if p.isPrefixOf l then matchLitWsSeqRem ps ((l.drop p.length).dropWhile isJsSpace)
      else none

/-- `.test` of a `lit(\s*lit)*` pattern (e.g.
`/setActivePinia\s*\(\s*createPinia\s*\(\s*\)\s*\)/`): the sequence matches
starting at some position. -/
def testSeqAnywhere (ps : List (List Char)) : List Char → Bool
  | [] => (matchLitWsSeqRem ps []).isSome
  | c :: rest => (matchLitWsSeqRem ps (c :: rest)).isSome || testSeqAnywhere ps rest

/-- Remainder after the first occurrence of `pat`. -/
def dropThrough (pat : List Char) : List Char → Option (List Char)
  | [] => none
  | c :: rest =>
      if pat.isPrefixOf (c :: rest) then some ((c :: rest).drop pat.length)
      else dropThrough pat rest

/-- One start position of
`/setup\s*\(\s*\)\s*=>\s*\{[\s\S]*?setActivePinia[\s\S]*?\}/`. -/
def testSetupAt (l : List Char) : Bool :=
  match matchLitWsSeqRem ["setup".toList, "(".toList, ")".toList, "=>".toList, [lbrace]] l with
  | none => false
  | some rem =>
      match dropThrough "setActivePinia".toList rem with
      | none => false
      | some rem2 => listInfix [rbrace] rem2

/-- `.test` of the `hasTestSetup` regular expression. -/
def testSetupAnywhere : List Char → Bool
  | [] => false
  | c :: rest => testSetupAt (c :: rest) || testSetupAnywhere rest

/-- Count of non-overlapping occurrences of a literal (`match(/<lit>/g)`). -/
def countLitOcc (pat : List Char) : Nat → List Char → Nat
  | _, [] => 0
  | 0, _ => 0
  | fuel + 1, c :: rest =>
      if pat.isPrefixOf (c :: rest) then 1 + countLitOcc pat fuel ((c :: rest).drop pat.length)
      else countLitOcc pat fuel rest

/-- Count of `/<lit>\s*\(/g` matches. -/
def countLitWsParen (pat : List Char) : Nat → List Char → Nat
  | _, [] => 0
  | 0, _ => 0
  | fuel + 1, c :: rest =>
      if pat.isPrefixOf (c :: rest) then
        let r1 := (c :: rest).drop pat.length
        let sp := r1.takeWhile isJsSpace
        if (r1.drop sp.length).head? == some '(' then
          1 + countLitWsParen pat fuel ((r1.drop sp.length).drop 1)
        else countLitWsParen pat fuel rest
      else countLitWsParen pat fuel rest

/-- Count of `/\b<lit>\s*\(/g` matches (e.g. `/\buseStore\s*\(/g`). -/
def countBoundLitWsParen (w : List Char) : Bool → Nat → List Char → Nat
  | _, _, [] => 0
  | _, 0, _ => 0
  | prevIsWord, fuel + 1, c :: rest =>
      match (if prevIsWord then none else dropLit w (c :: rest)) with
      | some r1 =>
          let sp := r1.takeWhile isJsSpace
          if (r1.drop sp.length).head? == some '(' then
            1 + countBoundLitWsParen w false fuel ((r1.drop sp.length).drop 1)
          else countBoundLitWsParen w (isWordChar c) fuel rest
      | none => countBoundLitWsParen w (isWordChar c) fuel rest

/-- Count of `/\b(?:it|test|describe)\s*\(/g` matches (the alternatives have
pairwise distinct first letters, so at most one can match at a position). -/
def countTestCalls : Bool → Nat → List Char → Nat
  | _, _, [] => 0
  | _, 0, _ => 0
  | prevIsWord, fuel + 1, c :: rest =>
      let tryWord := fun (w : List Char) =>
        if !prevIsWord && w.isPrefixOf (c :: rest) then
          let r1 := (c :: rest).drop w.length
          let sp := r1.takeWhile isJsSpace
          if (r1.drop sp.length).head? == some '(' then some ((r1.drop sp.length).drop 1)
          else none
        else none
      match tryWord "it".toList with
      | some r => 1 + countTestCalls false fuel r
      | none =>
        match tryWord "test".toList with
        | some r => 1 + countTestCalls false fuel r
        | none =>
          match tryWord "describe".toList with
          | some r => 1 + countTestCalls false fuel r
          | none => countTestCalls (isWordChar c) fuel rest

/-- Global matches of `/expect\([^)]+\)\.toMatchSnapshot\(\)/g`
(matched texts only). -/
def expectSnapshotBlocks : Nat → List Char → List (List Char)
  | _, [] => []
  | 0, _ => []
  | fuel + 1, c :: rest =>
      match (do
        let r1 ← dropLit "expect(".toList (c :: rest)
        let inner := r1.takeWhile fun x => x != ')'
        guard (inner ≠ [])
        let r2 ← dropLit ")".toList (r1.drop inner.length)
        let _ ← dropLit ".toMatchSnapshot()".toList r2
        pure ("expect(".toList ++ inner ++ ")".toList ++ ".toMatchSnapshot()".toList)) with
      | some m => m :: expectSnapshotBlocks fuel ((c :: rest).drop m.length)
      | none => expectSnapshotBlocks fuel rest

/-- After the opening brace of a test block: the lazy `[\s\S]*?\}\s*\)` tail
matches iff some later right brace is followed by `\s*` and `)`. -/
def closeBraceParen : List Char → Bool
  | [] => false
  | c :: rest => (c == rbrace && (rest.dropWhile isJsSpace).head? == some ')') || closeBraceParen rest

/-- One start position of the test-block regex
`/(?:it|test)\s*\(\s*['"`]([^'"`]+)['"`]\s*,\s*\([^)]*\)\s*=>\s*\{([\s\S]*?)\}\s*\)/`. -/
def itBlockAt (l : List Char) : Bool :=
  (do
    let r1 ← (dropLit "it".toList l).orElse fun _ => dropLit "test".toList l
    let r2 ← dropLit "(".toList (r1.dropWhile isJsSpace)
    let r3 := r2.dropWhile isJsSpace
    let q ← r3.head?
    guard (isQuoteChar q)
    let r4 := r3.drop 1
    let nm := r4.takeWhile fun c => !isQuoteChar c
    guard (nm ≠ [])
    let r5 := r4.drop nm.length
    let q2 ← r5.head?
    guard (isQuoteChar q2)
    let r6 ← dropLit ",".toList ((r5.drop 1).dropWhile isJsSpace)
    let r7 ← dropLit "(".toList (r6.dropWhile isJsSpace)
    let inner := r7.takeWhile fun x => x != ')'
    let r8 ← dropLit ")".toList (r7.drop inner.length)
    let r9 ← dropLit "=>".toList (r8.dropWhile isJsSpace)
    let r10 ← dropLit [lbrace] (r9.dropWhile isJsSpace)
    guard (closeBraceParen r10)
    pure ()).isSome

/-- `.match` of the test-block regex finds at least one match. -/
def existsITBlock : List Char → Bool
  | [] => false
  | c :: rest => itBlockAt (c :: rest) || existsITBlock rest

/-! ## Testing-category detectors -/

/-- The first phase of `detectImplementationTesting`: the five
internal-state regexes, each occurrence pushing a MEDIUM issue. -/
def implementationTestingScanIssues (scriptContent : String) : List Issue :=
  let cl := scriptContent.toList
  let n := cl.length
  let occs :=
    scanBoundLitWord "wrapper.vm.".toList false 0 n cl ++
    scanBoundLitWsParen "setData".toList false 0 n cl ++
    scanBoundLitWsParen "wrapper.setProps".toList false 0 n cl ++
    scanExpectDotted ".computed.".toList 0 n cl ++
    scanExpectDotted ".data.".toList 0 n cl
  occs.map fun oc =>
    { pattern := "IMPLEMENTATION_TESTING", severity := "MEDIUM",
      message := "Test accesses internal implementation: " ++ String.mk oc.2,
      location := getLineColumnFromIndex scriptContent oc.1,
      refactoring := some "Test behavior (rendered output, events) instead of internal state" }

/-- `detectImplementationTesting(sfc, filePath)`.  The second phase
(the `testBlocks.forEach`) reads `testMatch[3]`, which is `undefined` (the
regex has only two capture groups); every following regex `.test(testBody)`
coerces it to the string "undefined" and none of them matches it, so that
phase never pushes an issue and contributes nothing. -/
def detectImplementationTesting (sfc : SFC) (filePath : String) : List Issue :=
  match sfc.descriptor.script with
  | none => []
  | some script =>
      if script.content == "" then []
      else if !includes filePath ".spec." && !includes filePath ".test." &&
              !includes filePath "__tests__" && !includes filePath "/tests/" then []
      else implementationTestingScanIssues script.content

/-- The body of `detectPiniaStateLeak` after its guards. -/
def piniaStateLeakIssues (scriptContent : String) : List Issue :=
  let cl := scriptContent.toList
  let usesPinia := testWordBounded "useStore".toList false cl ||
    testWordBounded "defineStore".toList false cl ||
    testWordBounded "createPinia".toList false cl
  if !usesPinia then []
  else
    let hasBeforeEach := testBoundLitWsParen "beforeEach".toList false cl
    let hasSetActivePinia := testSeqAnywhere
      ["setActivePinia".toList, "(".toList, "createPinia".toList,
       "(".toList, ")".toList, ")".toList] cl
    let hasTestSetup := testSetupAnywhere cl
    (if hasBeforeEach && !hasSetActivePinia && !hasTestSetup then
      [{ pattern := "PINIA_STATE_LEAK", severity := "CRITICAL",
         message := "Test file uses Pinia stores without proper isolation - state pollution between tests",
         location := jsIndexOfLoc scriptContent "beforeEach",
         refactoring := some "Add to beforeEach: setActivePinia(createPinia()) or use createTestingPinia()" }]
     else []) ++
    (if !hasBeforeEach && !hasSetActivePinia && !hasTestSetup && usesPinia then
      match firstWordIndexAux "useStore".toList false 0 cl with
      | some firstUseStore =>
        [{ pattern := "PINIA_STATE_LEAK", severity := "HIGH",
           message := "Pinia store used in tests without proper setup - may cause shared state between tests",
           location := getLineColumnFromIndex scriptContent firstUseStore,
           refactoring := some "Add beforeEach(() => \x7b setActivePinia(createPinia()) \x7d) or use createTestingPinia()" }]
      | none => []
     else []) ++
    (if countBoundLitWsParen "useStore".toList false cl.length cl > 1 &&
        !hasSetActivePinia && !hasTestSetup then
      [{ pattern := "PINIA_STATE_LEAK", severity := "MEDIUM",
         message := "Multiple Pinia stores used without test isolation setup",
         location := jsIndexOfLoc scriptContent "useStore",
         refactoring := some "Isolate store instances: beforeEach(() => setActivePinia(createPinia()))" }]
     else [])

/-- `detectPiniaStateLeak(sfc, filePath)`. -/
def detectPiniaStateLeak (sfc : SFC) (filePath : String) : List Issue :=
  match sfc.descriptor.script with
  | none => []
  | some script =>
      if script.content == "" then []
      else if !includes filePath ".spec." && !includes filePath ".test." &&
              !includes filePath "__tests__" && !includes filePath "/tests/" then []
      else piniaStateLeakIssues script.content

/-- The body of `detectSnapshotOveruse` after its guards.  Its final
`testBlocks.forEach` reads `testMatch[3]` — `undefined`, since the block
regex has two capture groups — and then calls `.match` on it, which throws a
`TypeError`; so whenever the block regex matches at all, the detector throws
and its locally collected issues are lost. -/
def snapshotOveruseCore (scriptContent : String) : Except String (List Issue) :=
  let cl := scriptContent.toList
  let n := cl.length
  let snapshotTests := countLitOcc ".toMatchSnapshot()".toList n cl
  let inlineSnapshotTests := countLitWsParen ".toMatchInlineSnapshot".toList n cl
  let totalSnapshots := snapshotTests + inlineSnapshotTests
  let totalTests := countTestCalls false n cl
  let snapshotRate : ℚ := if totalTests > 0 then (totalSnapshots : ℚ) / (totalTests : ℚ) else 0
  let part1 : List Issue :=
    if snapshotRate > 0.5 then
      [{ pattern := "SNAPSHOT_OVERUSE",
         severity := if snapshotRate > 0.8 then "HIGH" else "MEDIUM",
         message := toString (round (snapshotRate * 100)) ++ "% of tests use snapshots (" ++
           toString totalSnapshots ++ "/" ++ toString totalTests ++ ") - reduces test effectiveness",
         location := getLineColumnFromIndex scriptContent 0,
         refactoring := some "Replace snapshots with specific assertions: expect(element).toHaveTextContent(\"expected\") or expect(result).toEqual(expectedValue)" }]
    else []
  let part2 : List Issue :=
    if totalTests == totalSnapshots && totalTests > 0 then
      [{ pattern := "SNAPSHOT_OVERUSE", severity := "HIGH",
         message := "Test file contains only snapshot tests - provides no behavioral verification",
         location := getLineColumnFromIndex scriptContent 0,
         refactoring := some "Add behavioral assertions alongside snapshots or replace with specific expectations" }]
    else []
  let part3 : List Issue :=
    (expectSnapshotBlocks n cl).filterMap fun m =>
      if listInfix "wrapper.".toList m || listInfix "component.".toList m ||
         listInfix "mount(".toList m || listInfix "shallowMount(".toList m then
        some { pattern := "SNAPSHOT_OVERUSE", severity := "LOW",
               message := "Snapshot testing component output - consider specific assertions for better test clarity",
               location := jsIndexOfLoc scriptContent (String.mk m),
               refactoring := some "Test specific behaviors: expect(wrapper.text()).toBe(\"expected\") instead of snapshot" }
      else none
  if existsITBlock cl then
    .error "Cannot read properties of undefined (reading 'match')"
  else
    .ok (part1 ++ part2 ++ part3)

/-- `detectSnapshotOveruse(sfc, filePath)` (as a possibly-throwing
computation, see `snapshotOveruseCore`). -/
def detectSnapshotOveruse (sfc : SFC) (filePath : String) : Except String (List Issue) :=
  match sfc.descriptor.script with
  | none => .ok []
  | some script =>
      if script.content == "" then .ok []
      else if !includes filePath ".spec." && !includes filePath ".test." &&
              !includes filePath "__tests__" && !includes filePath "/tests/" then .ok []
      else snapshotOveruseCore script.content

/-! ## Concrete fixtures (from the repository's own test templates) -/

/-- An SFC with neither template nor script block. -/
def sfcEmpty : SFC := ⟨⟨none, none⟩⟩

/-- A parser that accepts every input (yielding `sfcEmpty`). -/
def okParse : String → Except String SFC := fun _ => .ok sfcEmpty

/-- A parser that rejects every input. -/
def badParse : String → Except String SFC := fun _ => .error "Invalid end of input"

/-- A registry entry that always throws. -/
def faultyDetector : DetectorFn := fun _ _ => .error "boom"

/-- A LOW-severity issue fixture. -/
def issueLow : Issue :=
  ⟨"WATCHER_SHOULD_BE_COMPUTED", "LOW", "Watcher duplicates derivable state", ⟨7, 3⟩, none⟩

/-- A MEDIUM-severity issue fixture. -/
def issueMedium : Issue :=
  ⟨"DEEP_WATCHER_OVERUSE", "MEDIUM", "Deep watcher on large object", ⟨9, 3⟩, none⟩

/-- A second LOW-severity issue fixture (for the stable-tie witness). -/
def issueLowB : Issue :=
  ⟨"REF_TYPE_INFERENCE_ISSUES", "LOW", "ref(undefined) may hide the intended type", ⟨12, 1⟩, none⟩

/-- A CRITICAL-severity issue fixture. -/
def issueCritical : Issue :=
  ⟨"COMPUTED_SIDE_EFFECTS", "CRITICAL", "Computed property mutates state", ⟨2, 5⟩, none⟩

/-- A detector returning one LOW issue. -/
def lowDetector (_ : SFC) (_ : String) : List Issue := [issueLow]

/-- A detector returning a LOW and then a CRITICAL issue. -/
def mixedDetectorA (_ : SFC) (_ : String) : List Issue := [issueLow, issueCritical]

/-- A detector returning one MEDIUM and one more LOW issue. -/
def mixedDetectorB (_ : SFC) (_ : String) : List Issue := [issueMedium, issueLowB]

/-- The registry used by the ordering witness. -/
def mixedRegistry : List (String × (SFC → String → List Issue)) :=
  [("A", mixedDetectorA), ("B", mixedDetectorB)]

/-- A parsed `v-for` directive prop with the given expression. -/
def vForProp (e : String) : NodeProp := ⟨7, "for", some "v-for", none, some e, none⟩

/-- A parsed `v-if` directive prop. -/
def vIfProp : NodeProp := ⟨7, "if", some "v-if", none, some "user.isActive", none⟩

/-- A parsed `:key` binding (a `bind` directive with argument `key`). -/
def bindKeyProp (e : String) : NodeProp := ⟨7, "bind", some ":key", some "key", some e, none⟩

/-- A parsed plain `key="1"` attribute. -/
def keyAttrProp : NodeProp := ⟨6, "key", none, none, none, some "1"⟩

/-- A parsed `v-html` directive prop with the given expression. -/
def vHtmlProp (e : String) : NodeProp := ⟨7, "html", some "v-html", none, some e, none⟩

/-- `<li v-for="u in users" :key="index">` (the non-parenthesised form). -/
def liUinUsersIndexKey : TNode :=
  .mk 1 [vForProp "u in users", bindKeyProp "index"] [] none (some ⟨1, 1⟩)

/-- `<li v-for="(u, index) in users" :key="index">`. -/
def liParenIndexKey : TNode :=
  .mk 1 [vForProp "(u, index) in users", bindKeyProp "index"] [] none (some ⟨1, 1⟩)

/-- `<li v-for="(u, index) in users" :key="u.id">`. -/
def liParenIdKey : TNode :=
  .mk 1 [vForProp "(u, index) in users", bindKeyProp "u.id"] [] none (some ⟨2, 1⟩)

/-- `<div v-html="apiResponse.html"></div>`. -/
def divVHtmlApi : TNode := .mk 1 [vHtmlProp "apiResponse.html"] [] none (some ⟨1, 1⟩)

/-- The single-quoted static markup literal (quote characters spliced in). -/
def staticQuoted : String := String.mk (apostChar :: ("<b>static</b>".toList ++ [apostChar]))

/-- `<div v-html="'<b>static</b>'"></div>`. -/
def divVHtmlStatic : TNode := .mk 1 [vHtmlProp staticQuoted] [] none (some ⟨1, 1⟩)

/-- Wrap element nodes under a root fragment (node type 0). -/
def templateRootOf (children : List TNode) : TNode := .mk 0 [] children none (some ⟨1, 1⟩)

/-- An SFC whose descriptor holds the given template root and no script. -/
def sfcOfTemplate (root : TNode) : SFC := ⟨⟨some ⟨root, ""⟩, none⟩⟩

/-- A chain of `k + 1` directly nested element nodes. -/
def elemChain : Nat → TNode
  | 0 => .mk 1 [] [] none none
  | k + 1 => .mk 1 [] [elemChain k] none none

/-- A root fragment holding a chain of `k` directly nested elements. -/
def chainRoot : Nat → TNode
  | 0 => .mk 0 [] [] none none
  | k + 1 => .mk 0 [] [elemChain k] none none

/-- A text child node. -/
def textNode : TNode := .mk 2 [] [] (some "plain text") (some ⟨1, 1⟩)

/-- An interpolation child node. -/
def interpNode : TNode := .mk 5 [] [] (some "user.name") (some ⟨1, 6⟩)

/-- A script whose content would trip every testing detector in a test file. -/
def scriptFixture : ScriptBlock :=
  ⟨"const s = useStore()\nwrapper.vm.count\nexpect(a).toMatchSnapshot()"⟩

/-- An SFC holding only `scriptFixture`. -/
def sfcScriptOnly : SFC := ⟨⟨none, some scriptFixture⟩⟩

end VueDetect

namespace VueDetect

/-! ## Theorems -/

mutual

theorem traverseCollect_eq_flatMap (f : TNode → List Issue) (n : TNode) :
    traverseCollect f n = (preorder n).flatMap f := by
  match n with
  | .mk t props children content l =>
    rw [traverseCollect, preorder]
    by_cases h : t = 0 ∨ t = 1
    · simp only [if_pos h, List.flatMap_cons, traverseCollectList_eq_flatMap f children]
    · simp [if_neg h]
termination_by sizeOf n

theorem traverseCollectList_eq_flatMap (f : TNode → List Issue) (children : List TNode) :
    traverseCollectList f children = (preorderList children).flatMap f := by
  match children with
  | [] => rfl
  | c :: cs =>
    rw [traverseCollectList, preorderList, List.flatMap_append,
      traverseCollect_eq_flatMap f c, traverseCollectList_eq_flatMap f cs]
termination_by sizeOf children

end

/-- A traversal callback that emits one issue on matching nodes and nothing
otherwise turns the traversal into filter-then-map. -/
theorem flatMap_singleton_filter {p : TNode → Bool} {g : TNode → Issue} {f : TNode → List Issue}
    (hf : ∀ a, f a = if p a then [g a] else []) :
    ∀ l : List TNode, l.flatMap f = (l.filter p).map g := by
  intro l
  induction l with
  | nil => rfl
  | cons a l ih =>
    rw [List.flatMap_cons, ih, hf a, List.filter_cons]
    by_cases h : p a
    · simp [h]
    · simp [h]

theorem mem_insertByWeight (a x : Issue) (l : List Issue) :
    x ∈ insertByWeight a l ↔ x = a ∨ x ∈ l := by
  induction l with
  | nil => simp [insertByWeight]
  | cons b l ih =>
    rw [insertByWeight]
    by_cases h : getSeverityWeight b.severity ≤ getSeverityWeight a.severity
    · simp [h]
    · simp only [if_neg h, List.mem_cons, ih]
      tauto

theorem pairwise_insertByWeight (a : Issue) (l : List Issue)
    (hl : l.Pairwise fun i j => getSeverityWeight j.severity ≤ getSeverityWeight i.severity) :
    (insertByWeight a l).Pairwise
      fun i j => getSeverityWeight j.severity ≤ getSeverityWeight i.severity := by
  induction l with
  | nil => simp [insertByWeight]
  | cons b l ih =>
    rw [insertByWeight]
    rcases List.pairwise_cons.mp hl with ⟨hb, hl2⟩
    by_cases h : getSeverityWeight b.severity ≤ getSeverityWeight a.severity
    · rw [if_pos h]
      refine List.pairwise_cons.mpr ⟨?_, hl⟩
      intro x hx
      rcases List.mem_cons.mp hx with rfl | hx2
      · exact h
      · exact le_trans (hb x hx2) h
    · rw [if_neg h]
      refine List.pairwise_cons.mpr ⟨?_, ih hl2⟩
      intro x hx
      rcases (mem_insertByWeight a x l).mp hx with rfl | hx2
      · exact le_of_not_le h
      · exact hb x hx2

theorem sortIssues_pairwise (l : List Issue) :
    (sortIssues l).Pairwise
      fun i j => getSeverityWeight j.severity ≤ getSeverityWeight i.severity := by
  induction l with
  | nil => exact List.Pairwise.nil
  | cons a l ih => exact pairwise_insertByWeight a _ ih

theorem filter_insertByWeight (a : Issue) (l : List Issue) (v : Nat) :
    (insertByWeight a l).filter (fun i => getSeverityWeight i.severity == v) =
      if getSeverityWeight a.severity == v then
        a :: l.filter (fun i => getSeverityWeight i.severity == v)
      else l.filter (fun i => getSeverityWeight i.severity == v) := by
  induction l with
  | nil =>
    rw [insertByWeight]
    by_cases h : getSeverityWeight a.severity == v <;> simp [List.filter_cons, h]
  | cons b l ih =>
    rw [insertByWeight]
    by_cases hba : getSeverityWeight b.severity ≤ getSeverityWeight a.severity
    · rw [if_pos hba]
      simp only [List.filter_cons]
    · rw [if_neg hba, List.filter_cons, ih, List.filter_cons]
      by_cases ha : getSeverityWeight a.severity == v
      · have hav : getSeverityWeight a.severity = v := by simpa using ha
        have hb : ¬ (getSeverityWeight b.severity == v) = true := by
          simp only [beq_iff_eq]
          intro hbv
          exact hba (le_of_eq (hbv.trans hav.symm))
        simp [ha, hb]
      · simp [ha]

theorem sortIssues_filter (l : List Issue) (v : Nat) :
    (sortIssues l).filter (fun i => getSeverityWeight i.severity == v) =
      l.filter (fun i => getSeverityWeight i.severity == v) := by
  induction l with
  | nil => rfl
  | cons a l ih =>
    rw [sortIssues, filter_insertByWeight, ih, List.filter_cons]

theorem except_ok_bind {ε α β : Type} (a : α) (f : α → Except ε β) :
    (Except.ok a >>= f) = f a := rfl

theorem runDetectors_map_lift
    (pres : List (String × (SFC → String → List Issue))) (sfc : SFC) (path : String) :
    runDetectors (pres.map fun e => (e.1, liftDetector e.2)) sfc path =
      .ok ((pres.map fun e => e.2 sfc path).flatten) := by
  suffices h : ∀ (ps : List (String × (SFC → String → List Issue))) (acc : List Issue),
      List.foldlM
        (fun issues (entry : String × DetectorFn) =>
          (entry.2 sfc path).map fun patternIssues => issues ++ patternIssues)
        acc (ps.map fun e => (e.1, liftDetector e.2)) =
      .ok (acc ++ (ps.map fun e => e.2 sfc path).flatten) by
    simpa [runDetectors] using h pres []
  intro ps
  induction ps with
  | nil => intro acc; simp [List.foldlM]; rfl
  | cons e ps ih =>
    intro acc
    rw [List.map_cons, List.foldlM_cons]
    have hstep : Except.map (fun patternIssues => acc ++ patternIssues)
          ((e.1, liftDetector e.2).2 sfc path) = Except.ok (acc ++ e.2 sfc path) := rfl
    rw [hstep, except_ok_bind, ih]
    simp [List.append_assoc]

/-- C5: for every element node in the markup tree that carries both an
iteration binding (`v-for`) and a conditional binding (`v-if`), the
conditional-on-iterated-element detector emits exactly one issue for that
element — the traversal enumerates each node once, and the result is
precisely one `vIfWithVForIssue` per qualifying element — and its severity is
CRITICAL; elements lacking one of the two bindings yield no issue. -/
theorem detectVIfWithVFor_spec (t : TemplateBlock) (scr : Option ScriptBlock) (path : String) :
    detectVIfWithVFor ⟨⟨some t, scr⟩⟩ path =
      ((preorder t.ast).filter fun n =>
          n.ntype == 1 && hasDirective n "for" && hasDirective n "if").map vIfWithVForIssue ∧
    ∀ n, (vIfWithVForIssue n).severity = "CRITICAL" := by
  constructor
  · have h1 : detectVIfWithVFor ⟨⟨some t, scr⟩⟩ path =
        traverseCollect vIfWithVForNode t.ast := rfl
    rw [h1, traverseCollect_eq_flatMap]
    exact flatMap_singleton_filter (fun a => rfl) _
  · intro n
    rfl

/-- The nested conditionals of `vForWithoutKeyNode` collapse to a single
guard. -/
theorem vForWithoutKeyNode_eq (path : String) (n : TNode) :
    vForWithoutKeyNode path n =
      if n.ntype == 1 && hasDirective n "for"
          && !(n.props.any fun p => p.ptype == 7 && p.name == "bind" && p.arg == some "key")
          && !(n.props.any fun p => p.ptype == 6 && p.name == "key") then
        [vForWithoutKeyIssue path n]
      else [] := by
  rw [vForWithoutKeyNode]
  by_cases h1 : (n.ntype == 1 && hasDirective n "for") = true
  · by_cases h2 : (n.props.any fun p => p.ptype == 7 && p.name == "bind" && p.arg == some "key") = true
    all_goals by_cases h3 : (n.props.any fun p => p.ptype == 6 && p.name == "key") = true
    all_goals simp [h1, h2, h3]
  · simp [h1]

/-- C8: the missing-iteration-key detector emits no issue for an
iteration-bound element carrying either a bound `:key` directive or a static
`key` attribute, and for an element with neither it emits exactly one issue
whose severity is CRITICAL exactly when the file path contains the substring
`component` and HIGH otherwise. -/
theorem detectVForWithoutKey_spec (t : TemplateBlock) (scr : Option ScriptBlock) (path : String) :
    detectVForWithoutKey ⟨⟨some t, scr⟩⟩ path =
      ((preorder t.ast).filter fun n =>
          n.ntype == 1 && hasDirective n "for"
            && !(n.props.any fun p => p.ptype == 7 && p.name == "bind" && p.arg == some "key")
            && !(n.props.any fun p => p.ptype == 6 && p.name == "key")).map
        (vForWithoutKeyIssue path) ∧
    ∀ n, (vForWithoutKeyIssue path n).severity =
      if includes path "component" then "CRITICAL" else "HIGH" := by
  constructor
  · have h1 : detectVForWithoutKey ⟨⟨some t, scr⟩⟩ path =
        traverseCollect (vForWithoutKeyNode path) t.ast := rfl
    rw [h1, traverseCollect_eq_flatMap]
    exact flatMap_singleton_filter (vForWithoutKeyNode_eq path) _
  · intro n
    rfl

/-- Depth of a chain of nested elements, from any starting depth. -/
theorem elemChain_depth (k : Nat) : ∀ d : Nat, getMaxTemplateDepth (elemChain k) d = d + k := by
  induction k with
  | zero => intro d; rfl
  | succ k ih =>
    intro d
    have h1 : (elemChain k).ntype = 1 := by cases k <;> rfl
    rw [elemChain, getMaxTemplateDepth, maxDepthOverChildren, if_pos h1, ih (d + 1),
      maxDepthOverChildren]
    omega

/-- C9: `getMaxTemplateDepth` of a markup tree consisting of `k` directly
nested element nodes under the root equals exactly `k`, and of a flat root
whose children are only text (type 2) and interpolation (type 5) nodes
equals 0 (the root itself counts as depth 0). -/
theorem getMaxTemplateDepth_spec :
    (∀ k, getMaxTemplateDepth (chainRoot k) 0 = k) ∧
    (∀ cs : List TNode, (∀ c ∈ cs, c.ntype = 2 ∨ c.ntype = 5) →
      getMaxTemplateDepth (.mk 0 [] cs none none) 0 = 0) := by
  constructor
  · intro k
    cases k with
    | zero => rfl
    | succ k =>
      have h1 : (elemChain k).ntype = 1 := by cases k <;> rfl
      rw [chainRoot, getMaxTemplateDepth, maxDepthOverChildren, if_pos h1, elemChain_depth,
        maxDepthOverChildren]
      omega
  · intro cs h
    have key : ∀ (cs : List TNode) (d : Nat), (∀ c ∈ cs, c.ntype = 2 ∨ c.ntype = 5) →
        maxDepthOverChildren cs d = d := by
      intro cs
      induction cs with
      | nil => intro d _; rfl
      | cons c cs ih =>
        intro d hcs
        have hc : c.ntype ≠ 1 := by
          rcases hcs c (by simp) with h2 | h5 <;> omega
        rw [maxDepthOverChildren, if_neg hc]
        exact ih d fun x hx => hcs x (by simp [hx])
    exact key cs 0 h

/-- Witness for C9 at `k = 3` and at a flat root with one text and one
interpolation child. -/
theorem getMaxTemplateDepth_spec_witness :
    getMaxTemplateDepth (chainRoot 3) 0 = 3 ∧
    getMaxTemplateDepth (.mk 0 [] [textNode, interpNode] none none) 0 = 0 :=
  ⟨getMaxTemplateDepth_spec.1 3,
   getMaxTemplateDepth_spec.2 [textNode, interpNode] (by decide)⟩

/-- C3 counterexample: on the parser AST of
`<div v-html="apiResponse.html"></div>` the detector emits severity HIGH,
not the CRITICAL the claim requires, and on
`<div v-html="'<b>static</b>'"></div>` it does emit an issue although the
claim says it emits none. -/
theorem vHtmlXssRisk_counterexample :
    (detectVHtmlXssRisk (sfcOfTemplate (templateRootOf [divVHtmlApi])) "App.vue").map
        (fun i => i.severity) = ["HIGH"] ∧
    detectVHtmlXssRisk (sfcOfTemplate (templateRootOf [divVHtmlStatic])) "App.vue" ≠ [] := by
  constructor
  · decide
  · decide

/-- C3 (amended): every element carrying a `v-html` binding yields exactly
one issue, whose severity branches on `isDynamicContent(vHtmlAttr.value)`;
since parser-produced directive nodes (`type === 7`) carry no `value`
property, that test always sees `undefined` and the severity is always HIGH
(never CRITICAL), and the static-literal example fires as well. -/
theorem detectVHtmlXssRisk_amended :
    (∀ (t : TemplateBlock) (scr : Option ScriptBlock) (path : String),
      detectVHtmlXssRisk ⟨⟨some t, scr⟩⟩ path = (preorder t.ast).flatMap vHtmlXssRiskNode) ∧
    (∀ (n : TNode) (p : NodeProp),
      (∀ q ∈ n.props, q.ptype = 7 → q.value = none) →
      n.props.find? (fun q => q.ptype == 7 && q.rawName == some "v-html") = some p →
      n.ntype = 1 →
      vHtmlXssRiskNode n =
        [{ pattern := "VHTML_XSS_RISK", severity := "HIGH",
           message := "Using v-html with dynamic content creates XSS vulnerability",
           location := getNodeLocation n,
           refactoring := some "Use text interpolation or sanitize content before using v-html" }]) := by
  constructor
  · intro t scr path
    have h1 : detectVHtmlXssRisk ⟨⟨some t, scr⟩⟩ path =
        traverseCollect vHtmlXssRiskNode t.ast := rfl
    rw [h1, traverseCollect_eq_flatMap]
  · intro n p hvals hfind hn
    have hmem : p ∈ n.props := List.mem_of_find?_eq_some hfind
    have hpred := List.find?_some hfind
    have hp7 : p.ptype = 7 := by
      simp only [Bool.and_eq_true, beq_iff_eq] at hpred
      exact hpred.1
    have hpv : p.value = none := hvals p hmem hp7
    have hany : (n.props.any fun q => q.ptype == 7 && q.rawName == some "v-html") = true :=
      List.any_eq_true.mpr ⟨p, hmem, hpred⟩
    simp [vHtmlXssRiskNode, hn, hany, hfind, vHtmlXssRiskIssue, hpv, isDynamicContent]

/-- Witness for the amended C3: on the dynamic-content fixture the node
callback emits exactly one HIGH issue. -/
theorem detectVHtmlXssRisk_amended_witness :
    vHtmlXssRiskNode divVHtmlApi =
      [{ pattern := "VHTML_XSS_RISK", severity := "HIGH",
         message := "Using v-html with dynamic content creates XSS vulnerability",
         location := ⟨1, 1⟩,
         refactoring := some "Use text interpolation or sanitize content before using v-html" }] :=
  (detectVHtmlXssRisk_amended.2 divVHtmlApi (vHtmlProp "apiResponse.html")
    (by decide) (by decide) (by decide)).trans (by decide)

/-- C7 counterexample: on the claim's own example
`<li v-for="u in users" :key="index">`, the index-as-key detector emits no
issue at all (it fires HIGH per the claim only for the parenthesised
`(item, index)` iteration form; `u in users` yields no secondary variable). -/
theorem vForIndexAsKey_counterexample :
    detectVForIndexAsKey (sfcOfTemplate (templateRootOf [liUinUsersIndexKey])) "List.vue" = [] ∧
    forIndexVarMatch "u in users".toList = none := by
  constructor
  · decide
  · decide

/-- C7 (amended): for an iteration-bound element with a bound `:key`, the
detector emits one HIGH issue exactly when the key expression textually
equals the secondary (index) variable extracted from the parenthesised
`(item, index)` form of the iteration expression, and no issue when the key
is a distinct expression such as `u.id`; the non-parenthesised form
`u in users` yields no secondary variable, so the claim's literal example
cannot fire. -/
theorem detectVForIndexAsKey_amended :
    (∀ (t : TemplateBlock) (scr : Option ScriptBlock) (path : String),
      detectVForIndexAsKey ⟨⟨some t, scr⟩⟩ path = (preorder t.ast).flatMap vForIndexAsKeyNode) ∧
    (∀ (n : TNode) (kd fd : NodeProp) (fc k v : String),
      n.ntype = 1 → hasDirective n "for" = true →
      n.props.find? (fun p => p.ptype == 7 && p.name == "bind" && p.arg == some "key") = some kd →
      getDirective n "for" = some fd →
      dirExpValueChain fd = some fc →
      forIndexVarMatch fc.toList = some v →
      dirExpValueChain kd = some k →
      vForIndexAsKeyNode n = if k = v then [vForIndexAsKeyIssue n] else []) ∧
    forIndexVarMatch "(u, index) in users".toList = some "index" := by
  refine ⟨?_, ?_, by decide⟩
  · intro t scr path
    have h1 : detectVForIndexAsKey ⟨⟨some t, scr⟩⟩ path =
        traverseCollect vForIndexAsKeyNode t.ast := rfl
    rw [h1, traverseCollect_eq_flatMap]
  · intro n kd fd fc k v hn hfor hkd hfd hfc hv hk
    simp only [vForIndexAsKeyNode, hn, hfor, hkd, hfd, hfc, hv, hk]
    by_cases hkv : k = v
    · simp [hkv]
    · simp [hkv]

/-- Witness for the amended C7, on the repository's own fixtures:
`(item, index)`-form loop with `:key="index"` fires exactly one HIGH issue;
the same loop with `:key="u.id"` fires none. -/
theorem detectVForIndexAsKey_amended_witness :
    vForIndexAsKeyNode liParenIndexKey = [vForIndexAsKeyIssue liParenIndexKey] ∧
    vForIndexAsKeyNode liParenIdKey = [] :=
  ⟨(detectVForIndexAsKey_amended.2.1 liParenIndexKey (bindKeyProp "index")
      (vForProp "(u, index) in users") "(u, index) in users" "index" "index"
      (by decide) (by decide) (by decide) (by decide) (by decide) (by decide)
      (by decide)).trans (by decide),
   (detectVForIndexAsKey_amended.2.1 liParenIdKey (bindKeyProp "u.id")
      (vForProp "(u, index) in users") "(u, index) in users" "u.id" "index"
      (by decide) (by decide) (by decide) (by decide) (by decide) (by decide)
      (by decide)).trans (by decide)⟩

/-- C2 counterexample: supplying the partial override
`{templateExpressionLength: 100}` yields an effective set in which
`templateDepth` is absent (`undefined`), not the default 6 the claim's
merge semantics would retain. -/
theorem thresholds_counterexample :
    lookupThreshold (effectiveThresholds (some [("templateExpressionLength", 100)]))
        "templateDepth" = none ∧
    lookupThreshold getDefaultThresholds "templateDepth" = some 6 := by
  constructor
  · rfl
  · rfl

/-- C2 (amended): a supplied threshold set replaces the default set
wholesale (`options.thresholds || getDefaultThresholds()`): keys not
supplied are absent from the effective set rather than retained from the
defaults, and only when no set is supplied are the defaults used.  (The
default set itself is a fresh object per construction and is never
mutated.) -/
theorem effectiveThresholds_amended :
    (∀ t, effectiveThresholds (some t) = t) ∧
    effectiveThresholds none = getDefaultThresholds :=
  ⟨fun _ => rfl, rfl⟩

/-- C4: for every input whose parsing throws, `analyzeFile` returns a
FileResult whose issues list is exactly one synthetic issue with pattern
PARSE_ERROR, severity CRITICAL and location (line 1, column 1), and the
result does not depend on the registered detectors (none is invoked). -/
theorem analyzeFile_parse_error (parseSFC : String → Except String SFC)
    (detectors : List (String × DetectorFn)) (filePath content msg : String)
    (h : parseSFC content = .error msg) :
    analyzeFile parseSFC detectors filePath content = ⟨filePath, [parseErrorIssue msg]⟩ ∧
    (parseErrorIssue msg).pattern = "PARSE_ERROR" ∧
    (parseErrorIssue msg).severity = "CRITICAL" ∧
    (parseErrorIssue msg).location = ⟨1, 1⟩ ∧
    ∀ detectors2, analyzeFile parseSFC detectors2 filePath content =
      analyzeFile parseSFC detectors filePath content := by
  refine ⟨?_, rfl, rfl, rfl, ?_⟩
  · simp only [analyzeFile, h]
  · intro ds2
    simp only [analyzeFile, h]

/-- Witness for C4 with a concretely failing parser. -/
theorem analyzeFile_parse_error_witness :
    analyzeFile badParse [("VIF_WITH_VFOR", liftDetector lowDetector)] "bad.vue" "<template" =
      ⟨"bad.vue", [parseErrorIssue "Invalid end of input"]⟩ ∧
    analyzeFile badParse [] "bad.vue" "<template" =
      analyzeFile badParse [("VIF_WITH_VFOR", liftDetector lowDetector)] "bad.vue" "<template" := by
  have h := analyzeFile_parse_error badParse [("VIF_WITH_VFOR", liftDetector lowDetector)]
    "bad.vue" "<template" "Invalid end of input" rfl
  exact ⟨h.1, h.2.2.2.2 []⟩

/-- C1 counterexample: parsing succeeds, the first registered detector
throws, the second would report one issue — yet `analyzeFile` returns only
the synthetic PARSE_ERROR issue, dropping the remaining detector's output:
faults are not isolated per detector. -/
theorem analyzeFile_detector_fault_counterexample :
    analyzeFile okParse [("D1", faultyDetector), ("D2", liftDetector lowDetector)] "a.vue" "x" =
      ⟨"a.vue", [parseErrorIssue "boom"]⟩ ∧
    lowDetector sfcEmpty "a.vue" = [issueLow] ∧
    issueLow ∉ [parseErrorIssue "boom"] := by
  refine ⟨by decide, rfl, by decide⟩

/-- C1 (amended): a fault thrown by an individual detector propagates to the
single per-file `try/catch`: for any registry made of fault-free detectors
followed by a throwing one (and anything after it), the issues already
collected and all remaining detectors are discarded and the returned
FileResult is the single synthetic PARSE_ERROR issue built from the thrown
message. -/
theorem analyzeFile_detector_fault (parseSFC : String → Except String SFC)
    (pres : List (String × (SFC → String → List Issue))) (nm : String) (d : DetectorFn)
    (post : List (String × DetectorFn)) (filePath content msg : String) (sfc : SFC)
    (hp : parseSFC content = .ok sfc) (hd : d sfc filePath = .error msg) :
    analyzeFile parseSFC ((pres.map fun e => (e.1, liftDetector e.2)) ++ (nm, d) :: post)
      filePath content = ⟨filePath, [parseErrorIssue msg]⟩ := by
  have h1 := runDetectors_map_lift pres sfc filePath
  rw [runDetectors] at h1
  have hrun : runDetectors ((pres.map fun e => (e.1, liftDetector e.2)) ++ (nm, d) :: post)
      sfc filePath = .error msg := by
    rw [runDetectors, List.foldlM_append, h1, except_ok_bind, List.foldlM_cons]
    have hstep : Except.map
        (fun patternIssues => (pres.map fun e => e.2 sfc filePath).flatten ++ patternIssues)
        ((nm, d).2 sfc filePath) = Except.error msg := by
      show Except.map _ (d sfc filePath) = Except.error msg
      rw [hd]
      rfl
    rw [hstep]
    rfl
  simp only [analyzeFile, hp, hrun]

/-- Witness for the amended C1: one fault-free detector, then a throwing
one. -/
theorem analyzeFile_detector_fault_witness :
    analyzeFile okParse
        ([("D0", lowDetector)].map (fun e => (e.1, liftDetector e.2)) ++ ("D1", faultyDetector) :: [])
        "a.vue" "x" = ⟨"a.vue", [parseErrorIssue "boom"]⟩ :=
  analyzeFile_detector_fault okParse [("D0", lowDetector)] "D1" faultyDetector []
    "a.vue" "x" "boom" sfcEmpty rfl rfl

/-- C6: for every successfully parsed file analysed by fault-free
detectors, the issues list of the returned FileResult is non-increasing in
severity weight (CRITICAL=4, HIGH=3, MEDIUM=2, LOW=1) from index 0 to the
end, and the issues of each fixed weight appear in exactly the order the
registry concatenation produced them — the sort is stable, ties keeping
detector registration order. -/
theorem analyzeFile_sorted_stable (parseSFC : String → Except String SFC)
    (pres : List (String × (SFC → String → List Issue))) (filePath content : String) (sfc : SFC)
    (hp : parseSFC content = .ok sfc) :
    (analyzeFile parseSFC (pres.map fun e => (e.1, liftDetector e.2))
        filePath content).issues.Pairwise
      (fun i j => getSeverityWeight j.severity ≤ getSeverityWeight i.severity) ∧
    ∀ v, ((analyzeFile parseSFC (pres.map fun e => (e.1, liftDetector e.2))
          filePath content).issues.filter fun i => getSeverityWeight i.severity == v) =
        ((pres.map fun e => e.2 sfc filePath).flatten.filter
          fun i => getSeverityWeight i.severity == v) := by
  have hres : analyzeFile parseSFC (pres.map fun e => (e.1, liftDetector e.2)) filePath content =
      ⟨filePath, sortIssues ((pres.map fun e => e.2 sfc filePath).flatten)⟩ := by
    simp only [analyzeFile, hp, runDetectors_map_lift]
  rw [hres]
  exact ⟨sortIssues_pairwise _, fun v => sortIssues_filter _ v⟩

/-- Witness for C6: registry A then B, A produces a LOW then a CRITICAL
issue, B a MEDIUM then another LOW; the result is sorted by weight with the
two LOW issues kept in registration order. -/
theorem analyzeFile_sorted_stable_witness :
    (analyzeFile okParse (mixedRegistry.map fun e => (e.1, liftDetector e.2))
        "a.vue" "x").issues.Pairwise
      (fun i j => getSeverityWeight j.severity ≤ getSeverityWeight i.severity) ∧
    (analyzeFile okParse (mixedRegistry.map fun e => (e.1, liftDetector e.2))
        "a.vue" "x").issues = [issueCritical, issueMedium, issueLow, issueLowB] :=
  ⟨(analyzeFile_sorted_stable okParse mixedRegistry "a.vue" "x" sfcEmpty rfl).1, by decide⟩

/-- C10: for every file whose path contains none of the test-file markers
`.spec.`, `.test.`, `__tests__`, `/tests/`, the three testing-category
detectors return the empty issue list regardless of the file's content (for
`detectSnapshotOveruse`, a normal return of the empty list — in particular
its `TypeError` path is unreachable too). -/
theorem testingDetectors_nonTestFile (sfc : SFC) (filePath : String)
    (h1 : includes filePath ".spec." = false) (h2 : includes filePath ".test." = false)
    (h3 : includes filePath "__tests__" = false) (h4 : includes filePath "/tests/" = false) :
    detectImplementationTesting sfc filePath = [] ∧
    detectPiniaStateLeak sfc filePath = [] ∧
    detectSnapshotOveruse sfc filePath = .ok [] := by
  refine ⟨?_, ?_, ?_⟩
  · cases hsc : sfc.descriptor.script with
    | none => simp [detectImplementationTesting, hsc]
    | some script =>
      by_cases hc : script.content == ""
      · simp [detectImplementationTesting, hsc, hc]
      · simp [detectImplementationTesting, hsc, hc, h1, h2, h3, h4]
  · cases hsc : sfc.descriptor.script with
    | none => simp [detectPiniaStateLeak, hsc]
    | some script =>
      by_cases hc : script.content == ""
      · simp [detectPiniaStateLeak, hsc, hc]
      · simp [detectPiniaStateLeak, hsc, hc, h1, h2, h3, h4]
  · cases hsc : sfc.descriptor.script with
    | none => simp [detectSnapshotOveruse, hsc]
    | some script =>
      by_cases hc : script.content == ""
      · simp [detectSnapshotOveruse, hsc, hc]
      · simp [detectSnapshotOveruse, hsc, hc, h1, h2, h3, h4]

/-- Witness for C10: a component path under `src/components` with a script
that would trip every testing detector were the file a test file. -/
theorem testingDetectors_nonTestFile_witness :
    detectImplementationTesting sfcScriptOnly "src/components/UserList.vue" = [] ∧
    detectPiniaStateLeak sfcScriptOnly "src/components/UserList.vue" = [] ∧
    detectSnapshotOveruse sfcScriptOnly "src/components/UserList.vue" = .ok [] :=
  testingDetectors_nonTestFile sfcScriptOnly "src/components/UserList.vue"
    (by decide) (by decide) (by decide) (by decide)

end VueDetect
